import Mathlib

/-!
Shallow embedding of the RAG support-bot backend (src/backend/main.py).

The core consists of four functions:
- semantic_search (the Retriever): embeds a query, queries the vector index,
  and zips documents, metadatas and distances positionally into snippets;
  any unavailability or exception yields the empty list.
- generate_response (the AnswerPipeline): retrieves with fan-out 5, builds the
  grounded prompt, calls the completion service, and normalizes success or
  failure into one QueryResponse shape.
- fallback_response: the unaided branch taken when retrieval is empty.
- ask_question (the boundary): rejects blank queries with a 400, rejects a
  missing credential with a 500, and otherwise runs the pipeline.

External collaborators (embedding model, vector index, completion service,
clock) are modelled as an explicit environment of functions; an exception
raised by a collaborator is modelled as a distinguished outcome value, since
the source catches every exception at the call site in question.
Floating-point values from the source are modelled as rationals.
-/

namespace CrossmintBot

/-- Metadata dict of one stored document; only the two keys the core reads. -/
structure Metadata where
  title : Option String
  url : Option String
deriving DecidableEq, Repr

/-- Shape of chroma_collection.query output: one inner list per input vector
for each of documents, metadatas and distances. -/
structure RawResult where
  documents : List (List String)
  metadatas : List (List Metadata)
  distances : List (List ℚ)
deriving DecidableEq, Repr

/-- One formatted retrieval hit, as built in semantic_search lines 125-129. -/
structure Snippet where
  content : String
  metadata : Metadata
  similarity : ℚ
deriving DecidableEq, Repr

/-- Outcome of one call to the completion service: generated text, or the
string rendering of the exception it raised. -/
inductive CompletionOutcome where
  | ok (text : String)
  | exn (msg : String)
deriving DecidableEq, Repr

/-- Collaborators of the Retriever. chromaAvailable and embedderAvailable
model the truthiness tests on the two global handles; indexQuery models the
embed-then-query sequence, with none standing for an exception raised inside
embedding or index lookup. -/
structure SearchEnv where
  chromaAvailable : Bool
  embedderAvailable : Bool
  indexQuery : String → Nat → Option RawResult

/-- Collaborators of the whole pipeline: the retrieval environment, the
completion service (arguments: system instruction, user instruction,
temperature, max output tokens), and the clock. -/
structure Env where
  search : SearchEnv
  complete : String → String → ℚ → Nat → CompletionOutcome
  now : String

/-- Pydantic QueryRequest: query plus an optional max_results defaulting
to 5. -/
structure QueryRequest where
  query : String
  max_results : Option Int := some 5
deriving DecidableEq, Repr

/-- Pydantic Source model. -/
structure Source where
  title : String
  url : String
  relevance_score : ℚ
deriving DecidableEq, Repr

/-- Pydantic QueryResponse model, the one externally observable answer
shape. -/
structure QueryResponse where
  query : String
  response : String
  sources : List Source
  timestamp : String
  method : String
deriving DecidableEq, Repr

/-- Result of the boundary operation: an HTTP error (status, detail) or a
well-formed QueryResponse. -/
inductive AskResult where
  | httpError (statusCode : Nat) (detail : String)
  | ok (resp : QueryResponse)
deriving DecidableEq, Repr

/-- The formatting loop of semantic_search lines 123-129: iterate over the
first documents batch, reading the metadata and distance at the same index.
A position where metadata or distance is missing raises IndexError, which the
enclosing handler turns into an empty result: modelled by none. -/
def formatLoop : List String → List Metadata → List ℚ → Option (List Snippet)
  | [], _, _ => some []
  | c :: cs, m :: ms, d :: ds =>
      (formatLoop cs ms ds).map (fun rest => Snippet.mk c m (1 - d) :: rest)
  | _ :: _, _, _ => none

/-- semantic_search (main.py lines 106-135): returns [] when either global
handle is unavailable, embeds and queries otherwise, and converts any
exception (modelled by none from indexQuery, a missing batch, or a
positional mismatch in formatLoop) into []. -/
def semantic_search (env : SearchEnv) (query : String) (n_results : Nat) :
    List Snippet :=
  if env.chromaAvailable && env.embedderAvailable then
    match env.indexQuery query n_results with
    | none => []
    | some results =>
      match results.documents with
      | [] => []
      | cs :: _ =>
        match results.metadatas, results.distances with
        | ms :: _, ds :: _ => (formatLoop cs ms ds).getD []
        | _, _ => []
  else []

/-- The source entry built for one retrieved snippet (main.py lines 152-156):
missing title or url metadata falls back to the documented defaults. -/
def mkSource (s : Snippet) : Source :=
  { title := s.metadata.title.getD "Crossmint Documentation"
    url := s.metadata.url.getD "https://docs.crossmint.com"
    relevance_score := s.similarity }

/-- Grounded system instruction (main.py lines 161-165). -/
def ragSystemPrompt : String :=
  "You are a helpful customer support assistant for Crossmint, a platform for integrating wallets, stablecoins, and blockchain primitives.\n\nUse the provided documentation context to answer the user\x27s question accurately and helpfully. If the context doesn\x27t contain enough information to fully answer the question, say so and provide what information you can from the context.\n\nAlways base your answer primarily on the provided context. Be specific and include relevant details from the documentation."

/-- The injected context (main.py lines 147-158): snippet contents in
retrieval order joined by a blank line. -/
def rag_context (docs : List Snippet) : String :=
  String.intercalate "\n\n" (docs.map Snippet.content)

/-- Grounded user instruction (main.py lines 167-172). -/
def rag_user_prompt (context query : String) : String :=
  "Context from Crossmint documentation:\n" ++ context ++ "\n\nQuestion: " ++
    query ++
    "\n\nPlease provide a helpful answer based on the documentation context above."

/-- Unaided system instruction (main.py lines 204-206). -/
def fallbackSystemPrompt : String :=
  "You are a helpful customer support assistant for Crossmint, a platform for integrating wallets, stablecoins, and blockchain primitives.\n\nProvide helpful answers about Crossmint\x27s services based on your general knowledge. Always recommend checking the official Crossmint documentation at docs.crossmint.com for the most up-to-date information."

/-- fallback_response (main.py lines 202-233): unaided completion at
temperature 0.1 with a 600-token ceiling; success yields the single synthetic
General Knowledge source, an exception yields an Error-mode response with
empty sources. -/
def fallback_response (env : Env) (query : String) : QueryResponse :=
  match env.complete fallbackSystemPrompt query (1/10) 600 with
  | CompletionOutcome.ok text =>
    { query := query
      response := text
      sources := [⟨"General Knowledge", "https://docs.crossmint.com", 1/2⟩]
      timestamp := env.now
      method := "Fallback (General Knowledge)" }
  | CompletionOutcome.exn msg =>
    { query := query
      response := "I\x27m having trouble generating a response right now. Error: " ++
        msg ++
        ". Please try again or check the Crossmint documentation directly."
      sources := []
      timestamp := env.now
      method := "Error" }

/-- generate_response (main.py lines 137-200): retrieve with fan-out 5, fall
back when empty, otherwise build the grounded prompt and call the completion
service at temperature 0.1 with an 800-token ceiling; an exception there is
downgraded to an Error-mode response that keeps the gathered sources. -/
def generate_response (env : Env) (query : String) : QueryResponse :=
  let relevant_docs := semantic_search env.search query 5
  if relevant_docs.isEmpty then
    fallback_response env query
  else
    let sources := relevant_docs.map mkSource
    let context := rag_context relevant_docs
    match env.complete ragSystemPrompt (rag_user_prompt context query)
        (1/10) 800 with
    | CompletionOutcome.ok text =>
      { query := query
        response := text
        sources := sources
        timestamp := env.now
        method := "RAG (Full Knowledge Base)" }
    | CompletionOutcome.exn msg =>
      { query := query
        response := "I encountered an error generating a response: " ++ msg ++
          ". Please try again."
        sources := sources
        timestamp := env.now
        method := "Error" }

/-- Python str.strip with no argument: remove leading and trailing
whitespace. Modelled over the character list. -/
def pyStrip (s : String) : String :=
  ⟨((s.data.dropWhile Char.isWhitespace).reverse.dropWhile
      Char.isWhitespace).reverse⟩

/-- ask_question (main.py lines 253-266): reject a blank query with 400,
reject a missing credential with 500, and otherwise run the pipeline on the
trimmed query. The try block around generate_response never fires in the
model because generate_response is total, matching the source where every
collaborator exception is already caught inside the pipeline. -/
def ask_question (env : Env) (apiKeySet : Bool) (request : QueryRequest) :
    AskResult :=
  if pyStrip request.query = "" then
    AskResult.httpError 400 "Query cannot be empty"
  else if apiKeySet = false then
    AskResult.httpError 500 "OpenAI API key not configured"
  else
    AskResult.ok (generate_response env (pyStrip request.query))

/-! ### Concrete environments used by witnesses and counterexamples -/

/-- Metadata with both optional keys absent. -/
def mdEmpty : Metadata := { title := none, url := none }

/-- Metadata with both keys present. -/
def mdDoc : Metadata :=
  { title := some "Minting Guide", url := some "https://docs.crossmint.com/minting" }

/-- A well-formed two-hit index response with distances inside [0,1]. -/
def rawHappy : RawResult :=
  { documents := [["docA", "docB"]]
    metadatas := [[mdDoc, mdEmpty]]
    distances := [[9/100, 23/100]] }

/-- Retrieval environment that always answers with rawHappy. -/
def searchHappy : SearchEnv :=
  { chromaAvailable := true, embedderAvailable := true
    indexQuery := fun _ _ => some rawHappy }

/-- Retrieval environment with the index handle unavailable. -/
def searchDown : SearchEnv :=
  { chromaAvailable := false, embedderAvailable := true
    indexQuery := fun _ _ => none }

/-- Index response with a distance of 2, outside [0,1]. -/
def rawFar : RawResult :=
  { documents := [["docA"]], metadatas := [[mdEmpty]], distances := [[2]] }

/-- Retrieval environment that always answers with rawFar. -/
def searchFar : SearchEnv :=
  { chromaAvailable := true, embedderAvailable := true
    indexQuery := fun _ _ => some rawFar }

/-- Index response whose metadata batch is shorter than its document batch. -/
def rawMismatch : RawResult :=
  { documents := [["a", "b"]], metadatas := [[mdEmpty]]
    distances := [[1/10, 2/10]] }

/-- Retrieval environment that always answers with rawMismatch. -/
def searchMismatch : SearchEnv :=
  { chromaAvailable := true, embedderAvailable := true
    indexQuery := fun _ _ => some rawMismatch }

/-- Single-hit index response with distance 0.15. -/
def rawPoint15 : RawResult :=
  { documents := [["d"]], metadatas := [[mdEmpty]], distances := [[15/100]] }

/-- Retrieval environment that always answers with rawPoint15. -/
def searchPoint15 : SearchEnv :=
  { chromaAvailable := true, embedderAvailable := true
    indexQuery := fun _ _ => some rawPoint15 }

/-- Full environment: retrieval succeeds and completion succeeds. -/
def envHappy : Env :=
  { search := searchHappy
    complete := fun _ _ _ _ => CompletionOutcome.ok "Use the mint endpoint."
    now := "2024-01-01T00:00:00" }

/-- Full environment: retrieval succeeds but completion raises. -/
def envHappyErr : Env :=
  { search := searchHappy
    complete := fun _ _ _ _ => CompletionOutcome.exn "timeout"
    now := "2024-01-01T00:00:00" }

/-- Full environment: index unavailable, completion succeeds. -/
def envDownOk : Env :=
  { search := searchDown
    complete := fun _ _ _ _ => CompletionOutcome.ok "General answer."
    now := "2024-01-01T00:00:00" }

/-- Full environment: index unavailable and completion raises. -/
def envDownErr : Env :=
  { search := searchDown
    complete := fun _ _ _ _ => CompletionOutcome.exn "rate limit"
    now := "2024-01-01T00:00:00" }


/-! ### Helper lemmas about the retrieval formatting loop -/

/-- When the formatting loop succeeds, the output has one snippet per
document and neither parallel list ran short. -/
theorem formatLoop_lengths (cs : List String) (ms : List Metadata)
    (ds : List ℚ) (l : List Snippet) (h : formatLoop cs ms ds = some l) :
    l.length = cs.length ∧ cs.length ≤ ms.length ∧ cs.length ≤ ds.length := by
  induction cs generalizing ms ds l with
  | nil =>
    simp only [formatLoop, Option.some.injEq] at h
    subst h
    simp
  | cons c cs ih =>
    cases ms with
    | nil => simp [formatLoop] at h
    | cons m ms =>
      cases ds with
      | nil => simp [formatLoop] at h
      | cons d ds =>
        simp only [formatLoop, Option.map_eq_some'] at h
        obtain ⟨rest, hrest, hl⟩ := h
        obtain ⟨h1, h2, h3⟩ := ih ms ds rest hrest
        subst hl
        simp [h1, Nat.succ_le_succ h2, Nat.succ_le_succ h3]

/-- The formatting loop fails exactly when some document position lacks a
metadata or a distance entry. -/
theorem formatLoop_eq_none_iff (cs : List String) (ms : List Metadata)
    (ds : List ℚ) :
    formatLoop cs ms ds = none ↔
      ms.length < cs.length ∨ ds.length < cs.length := by
  induction cs generalizing ms ds with
  | nil => simp [formatLoop]
  | cons c cs ih =>
    cases ms with
    | nil => simp [formatLoop]
    | cons m ms =>
      cases ds with
      | nil => simp [formatLoop]
      | cons d ds =>
        simp only [formatLoop, Option.map_eq_none', List.length_cons,
          Nat.succ_lt_succ_iff]
        exact ih ms ds

/-- Positional description of a successful formatting loop: the snippet at
index i carries the document, metadata and 1 - distance at index i. -/
theorem formatLoop_get (cs : List String) (ms : List Metadata) (ds : List ℚ)
    (l : List Snippet) (h : formatLoop cs ms ds = some l) (i : Nat)
    (h1 : i < cs.length) (h2 : i < ms.length) (h3 : i < ds.length)
    (hl : i < l.length) :
    l.get ⟨i, hl⟩ =
      ⟨cs.get ⟨i, h1⟩, ms.get ⟨i, h2⟩, 1 - ds.get ⟨i, h3⟩⟩ := by
  induction cs generalizing ms ds l i with
  | nil => simp at h1
  | cons c cs ih =>
    cases ms with
    | nil => simp [formatLoop] at h
    | cons m ms =>
      cases ds with
      | nil => simp [formatLoop] at h
      | cons d ds =>
        simp only [formatLoop, Option.map_eq_some'] at h
        obtain ⟨rest, hrest, hcons⟩ := h
        subst hcons
        cases i with
        | zero => rfl
        | succ j =>
          exact ih ms ds rest hrest j (Nat.lt_of_succ_lt_succ h1)
            (Nat.lt_of_succ_lt_succ h2) (Nat.lt_of_succ_lt_succ h3)
            (Nat.lt_of_succ_lt_succ hl)

/-- Every member of a successful formatting loop output sits at some position
where all three input lists are defined. -/
theorem mem_formatLoop (cs : List String) (ms : List Metadata) (ds : List ℚ)
    (l : List Snippet) (h : formatLoop cs ms ds = some l) (s : Snippet)
    (hs : s ∈ l) :
    ∃ (i : Nat) (h1 : i < cs.length) (h2 : i < ms.length)
      (h3 : i < ds.length),
      s = ⟨cs.get ⟨i, h1⟩, ms.get ⟨i, h2⟩, 1 - ds.get ⟨i, h3⟩⟩ := by
  obtain ⟨⟨i, hl⟩, hget⟩ := List.mem_iff_get.mp hs
  obtain ⟨hlen, hm, hd⟩ := formatLoop_lengths cs ms ds l h
  have h1 : i < cs.length := hlen ▸ hl
  have h2 : i < ms.length := Nat.lt_of_lt_of_le h1 hm
  have h3 : i < ds.length := Nat.lt_of_lt_of_le h1 hd
  exact ⟨i, h1, h2, h3, by rw [← hget, formatLoop_get cs ms ds l h i h1 h2 h3 hl]⟩

/-- The similarities of a successful formatting loop output are exactly
1 - d for the distances d consumed, in order. -/
theorem formatLoop_map_similarity (cs : List String) (ms : List Metadata)
    (ds : List ℚ) (l : List Snippet) (h : formatLoop cs ms ds = some l) :
    l.map Snippet.similarity = (ds.take cs.length).map (fun d => 1 - d) := by
  induction cs generalizing ms ds l with
  | nil =>
    simp only [formatLoop, Option.some.injEq] at h
    subst h
    simp
  | cons c cs ih =>
    cases ms with
    | nil => simp [formatLoop] at h
    | cons m ms =>
      cases ds with
      | nil => simp [formatLoop] at h
      | cons d ds =>
        simp only [formatLoop, Option.map_eq_some'] at h
        obtain ⟨rest, hrest, hl⟩ := h
        subst hl
        simp [ih ms ds rest hrest]

/-! ### Helper lemmas about semantic_search and the pipeline -/

/-- Unfolding of semantic_search when both handles are live and the index
answers with explicit first batches. -/
theorem semantic_search_eq_formatLoop (env : SearchEnv) (q : String) (n : Nat)
    (r : RawResult) (cs : List String) (cst : List (List String))
    (ms : List Metadata) (mst : List (List Metadata)) (ds : List ℚ)
    (dst : List (List ℚ)) (hc : env.chromaAvailable = true)
    (he : env.embedderAvailable = true) (hr : env.indexQuery q n = some r)
    (hcs : r.documents = cs :: cst) (hms : r.metadatas = ms :: mst)
    (hds : r.distances = ds :: dst) :
    semantic_search env q n = (formatLoop cs ms ds).getD [] := by
  simp [semantic_search, hc, he, hr, hcs, hms, hds]

/-- Every snippet semantic_search returns comes from one position of the
first batch of the index response, with all three fields present there. -/
theorem mem_semantic_search (env : SearchEnv) (q : String) (n : Nat)
    (s : Snippet) (hs : s ∈ semantic_search env q n) :
    ∃ (r : RawResult) (cs : List String) (ms : List Metadata) (ds : List ℚ),
      env.indexQuery q n = some r ∧ r.documents.head? = some cs ∧
      r.metadatas.head? = some ms ∧ r.distances.head? = some ds ∧
      ∃ (i : Nat) (h1 : i < cs.length) (h2 : i < ms.length)
        (h3 : i < ds.length),
        s = ⟨cs.get ⟨i, h1⟩, ms.get ⟨i, h2⟩, 1 - ds.get ⟨i, h3⟩⟩ := by
  unfold semantic_search at hs
  by_cases hav : env.chromaAvailable && env.embedderAvailable
  · rw [if_pos hav] at hs
    cases hr : env.indexQuery q n with
    | none => rw [hr] at hs; simp at hs
    | some r =>
      rw [hr] at hs
      obtain ⟨docs, mets, dists⟩ := r
      cases docs with
      | nil => simp at hs
      | cons cs cst =>
        cases mets with
        | nil => simp at hs
        | cons ms mst =>
          cases dists with
          | nil => simp at hs
          | cons ds dst =>
            simp only [Option.getD_some] at hs
            cases hfl : formatLoop cs ms ds with
            | none => rw [hfl] at hs; simp at hs
            | some l =>
              rw [hfl] at hs
              simp only [Option.getD_some] at hs
              exact ⟨⟨cs :: cst, ms :: mst, ds :: dst⟩, cs, ms, ds, rfl,
                rfl, rfl, rfl, mem_formatLoop cs ms ds l hfl s hs⟩
  · rw [if_neg hav] at hs
    simp at hs

/-- When retrieval is empty the pipeline takes the fallback branch. -/
theorem generate_response_of_empty (env : Env) (q : String)
    (h : semantic_search env.search q 5 = []) :
    generate_response env q = fallback_response env q := by
  simp [generate_response, h]

/-- The method field of every pipeline result is one of the three mode
labels. -/
theorem generate_response_method_mem (env : Env) (q : String) :
    (generate_response env q).method = "RAG (Full Knowledge Base)" ∨
    (generate_response env q).method = "Fallback (General Knowledge)" ∨
    (generate_response env q).method = "Error" := by
  unfold generate_response fallback_response
  cases hE : (semantic_search env.search q 5).isEmpty with
  | true =>
    simp only [hE, if_true]
    cases env.complete fallbackSystemPrompt q (1/10) 600 <;> simp
  | false =>
    simp only [hE, Bool.false_eq_true, if_false]
    cases env.complete ragSystemPrompt
        (rag_user_prompt (rag_context (semantic_search env.search q 5)) q)
        (1/10) 800 <;> simp


/-- The sources of a grounded pipeline result are the retrieved snippets
mapped through mkSource, for either completion outcome. -/
theorem sources_eq_map_mkSource (env : Env) (q : String) (l : List Snippet)
    (h : semantic_search env.search q 5 = l) (hne : l ≠ []) :
    (generate_response env q).sources = l.map mkSource := by
  have hE : l.isEmpty = false := by
    cases l with
    | nil => exact absurd rfl hne
    | cons a t => rfl
  simp only [generate_response, h, hE, Bool.false_eq_true, if_false]
  cases hc : env.complete ragSystemPrompt (rag_user_prompt (rag_context l) q)
      (1/10) 800 <;> rfl

/-- Branch equation of the pipeline: grounded completion success. -/
theorem generate_response_grounded_ok (env : Env) (q : String)
    (l : List Snippet) (t : String) (h : semantic_search env.search q 5 = l)
    (hne : l ≠ [])
    (hc : env.complete ragSystemPrompt (rag_user_prompt (rag_context l) q)
      (1/10) 800 = CompletionOutcome.ok t) :
    generate_response env q =
      { query := q, response := t, sources := l.map mkSource,
        timestamp := env.now, method := "RAG (Full Knowledge Base)" } := by
  have hE : l.isEmpty = false := by
    cases l with
    | nil => exact absurd rfl hne
    | cons a t => rfl
  simp only [generate_response, h, hE, Bool.false_eq_true, if_false, hc]

/-- Branch equation of the pipeline: grounded completion failure. -/
theorem generate_response_grounded_exn (env : Env) (q : String)
    (l : List Snippet) (msg : String)
    (h : semantic_search env.search q 5 = l) (hne : l ≠ [])
    (hc : env.complete ragSystemPrompt (rag_user_prompt (rag_context l) q)
      (1/10) 800 = CompletionOutcome.exn msg) :
    generate_response env q =
      { query := q
        response := "I encountered an error generating a response: " ++ msg ++
          ". Please try again."
        sources := l.map mkSource
        timestamp := env.now
        method := "Error" } := by
  have hE : l.isEmpty = false := by
    cases l with
    | nil => exact absurd rfl hne
    | cons a t => rfl
  simp only [generate_response, h, hE, Bool.false_eq_true, if_false, hc]

/-- Branch equation of the fallback: unaided completion success. -/
theorem fallback_response_ok (env : Env) (q t : String)
    (hc : env.complete fallbackSystemPrompt q (1/10) 600 =
      CompletionOutcome.ok t) :
    fallback_response env q =
      { query := q, response := t
        sources := [⟨"General Knowledge", "https://docs.crossmint.com", 1/2⟩]
        timestamp := env.now
        method := "Fallback (General Knowledge)" } := by
  simp only [fallback_response, hc]

/-- Branch equation of the fallback: unaided completion failure. -/
theorem fallback_response_exn (env : Env) (q msg : String)
    (hc : env.complete fallbackSystemPrompt q (1/10) 600 =
      CompletionOutcome.exn msg) :
    fallback_response env q =
      { query := q
        response :=
          "I\x27m having trouble generating a response right now. Error: " ++
            msg ++
            ". Please try again or check the Crossmint documentation directly."
        sources := []
        timestamp := env.now
        method := "Error" } := by
  simp only [fallback_response, hc]

/-! ### Claims -/

/-- C1: the boundary rejects a query that is blank after stripping with the
400 client error, uniformly in every environment and credential state, so no
retrieval or completion outcome can influence that path; for every non-blank
query with the credential configured it returns exactly one well-formed
response whose method is one of the three mode labels, and the pipeline is a
total function, so no backend failure reaches the caller as an exception. -/
theorem C1_boundary_contract (env : Env) (k : Bool) (req : QueryRequest) :
    (pyStrip req.query = "" →
      ask_question env k req = AskResult.httpError 400 "Query cannot be empty")
    ∧ (pyStrip req.query ≠ "" → k = true →
      ∃ resp : QueryResponse, ask_question env k req = AskResult.ok resp ∧
        (resp.method = "RAG (Full Knowledge Base)" ∨
         resp.method = "Fallback (General Knowledge)" ∨
         resp.method = "Error")) := by
  constructor
  · intro h
    simp [ask_question, h]
  · intro h hk
    subst hk
    exact ⟨generate_response env (pyStrip req.query), by simp [ask_question, h],
      generate_response_method_mem env (pyStrip req.query)⟩

/-- C1 witness: a whitespace-only request is rejected with the 400 error in a
concrete environment. -/
theorem C1_boundary_contract_witness :
    ask_question envHappy true { query := "   " } =
      AskResult.httpError 400 "Query cannot be empty" :=
  (C1_boundary_contract envHappy true { query := "   " }).1 (by decide)

/-- C2: when retrieval returns the ranked snippet list l, the sources of the
pipeline result are exactly l mapped to source entries in the same order with
the similarity values unmodified, the grounded user instruction is the
snippet contents in that order joined by a blank line followed by the literal
question, and a successful completion on that exact prompt is what the
pipeline returns as the answer text. -/
theorem C2_grounded_order_preserved (env : Env) (q : String)
    (l : List Snippet) (h : semantic_search env.search q 5 = l)
    (hne : l ≠ []) :
    (generate_response env q).sources = l.map mkSource
    ∧ (generate_response env q).sources.map Source.relevance_score =
        l.map Snippet.similarity
    ∧ rag_user_prompt (rag_context l) q =
        "Context from Crossmint documentation:\n" ++
          String.intercalate "\n\n" (l.map Snippet.content) ++
          "\n\nQuestion: " ++ q ++
          "\n\nPlease provide a helpful answer based on the documentation context above."
    ∧ ∀ t, env.complete ragSystemPrompt (rag_user_prompt (rag_context l) q)
          (1/10) 800 = CompletionOutcome.ok t →
        (generate_response env q).response = t := by
  have hE : l.isEmpty = false := by
    cases l with
    | nil => exact absurd rfl hne
    | cons a t => rfl
  refine ⟨sources_eq_map_mkSource env q l h hne, ?_, rfl, ?_⟩
  · rw [sources_eq_map_mkSource env q l h hne, List.map_map]
    rfl
  · intro t hc
    rw [generate_response_grounded_ok env q l t h hne hc]

/-- C2 witness: the concrete two-hit environment preserves order and
similarities in the sources. -/
theorem C2_grounded_order_preserved_witness :
    (generate_response envHappy "How do I mint?").sources =
      [Snippet.mk "docA" mdDoc (91/100),
       Snippet.mk "docB" mdEmpty (77/100)].map mkSource :=
  (C2_grounded_order_preserved envHappy "How do I mint?"
    [Snippet.mk "docA" mdDoc (91/100), Snippet.mk "docB" mdEmpty (77/100)]
    (by simp [semantic_search, envHappy, searchHappy, rawHappy, formatLoop]
        norm_num)
    (by simp)).1

/-- C3: a completion exception is downgraded, never raised. On the grounded
attempt the result keeps mode Error, the full ranked snippet list as sources
(non-empty), and a non-empty answer embedding the cause; on the unaided
attempt the result keeps mode Error, empty sources, and a non-empty answer
embedding the cause. -/
theorem C3_completion_failure_downgraded (env : Env) (q : String)
    (l : List Snippet) (msg : String)
    (h : semantic_search env.search q 5 = l) :
    (l ≠ [] →
      env.complete ragSystemPrompt (rag_user_prompt (rag_context l) q)
          (1/10) 800 = CompletionOutcome.exn msg →
      (generate_response env q).method = "Error"
      ∧ (generate_response env q).sources = l.map mkSource
      ∧ (generate_response env q).sources ≠ []
      ∧ (∃ a b, (generate_response env q).response = a ++ msg ++ b)
      ∧ (generate_response env q).response ≠ "")
    ∧ (l = [] →
      env.complete fallbackSystemPrompt q (1/10) 600 =
          CompletionOutcome.exn msg →
      (generate_response env q).method = "Error"
      ∧ (generate_response env q).sources = []
      ∧ (∃ a b, (generate_response env q).response = a ++ msg ++ b)
      ∧ (generate_response env q).response ≠ "") := by
  constructor
  · intro hne hc
    rw [generate_response_grounded_exn env q l msg h hne hc]
    refine ⟨rfl, rfl, ?_,
      ⟨"I encountered an error generating a response: ",
        ". Please try again.", rfl⟩, ?_⟩
    · simp [hne]
    · intro heq
      have hlen := congrArg String.length heq
      simp [String.length_append] at hlen
      exact absurd hlen.1.1 (by decide)
  · intro hnil hc
    subst hnil
    rw [generate_response_of_empty env q h, fallback_response_exn env q msg hc]
    refine ⟨rfl, rfl,
      ⟨"I\x27m having trouble generating a response right now. Error: ",
        ". Please try again or check the Crossmint documentation directly.",
        rfl⟩, ?_⟩
    intro heq
    have hlen := congrArg String.length heq
    simp [String.length_append] at hlen
    exact absurd hlen.1.1 (by decide)

/-- C3 witness: with two retrieved snippets and a raising completion service,
the concrete result is Error-mode with the retrieved sources kept. -/
theorem C3_completion_failure_downgraded_witness :
    (generate_response envHappyErr "How do I mint?").method = "Error" :=
  ((C3_completion_failure_downgraded envHappyErr "How do I mint?"
    [Snippet.mk "docA" mdDoc (91/100), Snippet.mk "docB" mdEmpty (77/100)]
    "timeout"
    (by simp [semantic_search, envHappyErr, searchHappy, rawHappy, formatLoop]
        norm_num)).1
    (by simp) rfl).1

/-- C4: the Retriever returns the empty list whenever the index or embedder
handle is unavailable, and whenever the embed-or-lookup step raises; it is a
total function, so it never raises itself. -/
theorem C4_retriever_degrades_to_empty (env : SearchEnv) (q : String)
    (n : Nat) :
    ((env.chromaAvailable = false ∨ env.embedderAvailable = false) →
      semantic_search env q n = [])
    ∧ (env.indexQuery q n = none → semantic_search env q n = []) := by
  constructor
  · intro h
    rcases h with h | h <;> simp [semantic_search, h]
  · intro h
    by_cases hav : env.chromaAvailable && env.embedderAvailable
    · simp [semantic_search, hav, h]
    · simp [semantic_search, hav]

/-- C4 witness: the concrete unavailable-index environment retrieves
nothing. -/
theorem C4_retriever_degrades_to_empty_witness :
    semantic_search searchDown "q" 5 = [] :=
  (C4_retriever_degrades_to_empty searchDown "q" 5).1 (Or.inl rfl)


/-- C5 counterexample: with the index unavailable retrieval yields no
snippets, yet when the completion service also raises, the concrete result
has mode Error and empty sources rather than mode Fallback with the single
synthetic General Knowledge source. -/
theorem C5_counterexample :
    semantic_search envDownErr.search "How do I mint?" 5 = []
    ∧ (generate_response envDownErr "How do I mint?").method = "Error"
    ∧ (generate_response envDownErr "How do I mint?").sources = [] := by
  have hf : generate_response envDownErr "How do I mint?" =
      { query := "How do I mint?"
        response :=
          "I\x27m having trouble generating a response right now. Error: " ++
            "rate limit" ++
            ". Please try again or check the Crossmint documentation directly."
        sources := []
        timestamp := envDownErr.now
        method := "Error" } := by
    rw [generate_response_of_empty envDownErr "How do I mint?" rfl,
      fallback_response_exn envDownErr "How do I mint?" "rate limit" rfl]
  exact ⟨rfl, by rw [hf], by rw [hf]⟩

/-- C5 amended: for a query whose retrieval yields no snippets, when the
unaided completion succeeds the pipeline returns mode Fallback with exactly
the single synthetic General Knowledge source carrying the canonical URL and
score 0.5; when it raises the pipeline returns mode Error with empty
sources; in both cases it returns rather than raises. -/
theorem C5_amended_fallback_shape (env : Env) (q : String)
    (h : semantic_search env.search q 5 = []) :
    (∀ t, env.complete fallbackSystemPrompt q (1/10) 600 =
        CompletionOutcome.ok t →
      generate_response env q =
        { query := q, response := t
          sources := [⟨"General Knowledge", "https://docs.crossmint.com", 1/2⟩]
          timestamp := env.now
          method := "Fallback (General Knowledge)" })
    ∧ (∀ m, env.complete fallbackSystemPrompt q (1/10) 600 =
        CompletionOutcome.exn m →
      (generate_response env q).method = "Error"
      ∧ (generate_response env q).sources = []) := by
  constructor
  · intro t hc
    rw [generate_response_of_empty env q h, fallback_response_ok env q t hc]
  · intro m hc
    rw [generate_response_of_empty env q h, fallback_response_exn env q m hc]
    exact ⟨rfl, rfl⟩

/-- C5 witness: the concrete unavailable-index environment with a working
completion service produces the Fallback-mode result with the synthetic
source. -/
theorem C5_amended_fallback_shape_witness :
    generate_response envDownOk "Hi" =
      { query := "Hi", response := "General answer."
        sources := [⟨"General Knowledge", "https://docs.crossmint.com", 1/2⟩]
        timestamp := "2024-01-01T00:00:00"
        method := "Fallback (General Knowledge)" } :=
  (C5_amended_fallback_shape envDownOk "Hi" rfl).1 "General answer." rfl

/-- C6 counterexample: the code computes similarity as 1 - distance without
clamping, so an index distance of 2 yields a returned snippet whose
similarity is negative, outside [0,1]. -/
theorem C6_counterexample :
    ∃ s, s ∈ semantic_search searchFar "q" 5 ∧ s.similarity < 0 := by
  refine ⟨Snippet.mk "docA" mdEmpty (-1), ?_, by norm_num⟩
  simp [semantic_search, searchFar, rawFar, formatLoop]
  norm_num

/-- C6 amended: every similarity the Retriever returns is 1 - d for a
distance d of the index response, hence it lies in [0,1] whenever every
distance the index reports lies in [0,1]. -/
theorem C6_amended_similarity_bounds (env : SearchEnv) (q : String) (n : Nat)
    (hb : ∀ r, env.indexQuery q n = some r →
      ∀ ds ∈ r.distances, ∀ d ∈ ds, 0 ≤ d ∧ d ≤ 1) :
    ∀ s ∈ semantic_search env q n, 0 ≤ s.similarity ∧ s.similarity ≤ 1 := by
  intro s hs
  obtain ⟨r, cs, ms, ds, hr, hcs, hms, hds, i, h1, h2, h3, hseq⟩ :=
    mem_semantic_search env q n s hs
  have hmem : ds ∈ r.distances := by
    cases hl : r.distances with
    | nil => rw [hl] at hds; exact absurd hds (by simp)
    | cons a t =>
      rw [hl] at hds
      simp only [List.head?_cons, Option.some.injEq] at hds
      subst hds
      exact List.mem_cons_self _ _
  have hdi := hb r hr ds hmem (ds.get ⟨i, h3⟩) (ds.get_mem i h3)
  subst hseq
  constructor
  · show 0 ≤ 1 - ds.get ⟨i, h3⟩
    linarith [hdi.2]
  · show 1 - ds.get ⟨i, h3⟩ ≤ 1
    linarith [hdi.1]

/-- C6 witness: with the concrete in-range distances 0.09 and 0.23, the
bound applies to the first returned snippet, of similarity 0.91. -/
theorem C6_amended_similarity_bounds_witness :
    0 ≤ (Snippet.mk "docA" mdDoc (91/100)).similarity
    ∧ (Snippet.mk "docA" mdDoc (91/100)).similarity ≤ 1 :=
  C6_amended_similarity_bounds searchHappy "q" 5
    (by intro r hr ds hds d hd
        simp only [searchHappy] at hr
        injection hr with hr
        subst hr
        simp only [rawHappy] at hds
        simp at hds
        subst hds
        simp at hd
        rcases hd with h | h <;> subst h <;> norm_num)
    (Snippet.mk "docA" mdDoc (91/100))
    (by simp [semantic_search, searchHappy, rawHappy, formatLoop]
        norm_num)

/-- C7: the boundary result does not depend on the max_results field of the
request, and the pipeline consults the index only through the single lookup
with the fixed fan-out limit 5: two environments agreeing on availability,
on the lookup at limit 5, on the completion service and on the clock produce
identical results. -/
theorem C7_fixed_fanout_and_max_results_ignored (env : Env) (k : Bool)
    (q : String) (m1 m2 : Option Int) :
    ask_question env k { query := q, max_results := m1 } =
      ask_question env k { query := q, max_results := m2 }
    ∧ ∀ env2 : Env,
        env2.search.chromaAvailable = env.search.chromaAvailable →
        env2.search.embedderAvailable = env.search.embedderAvailable →
        env2.search.indexQuery q 5 = env.search.indexQuery q 5 →
        env2.complete = env.complete → env2.now = env.now →
        generate_response env2 q = generate_response env q := by
  constructor
  · rfl
  · intro env2 h1 h2 h3 h4 h5
    have hss : semantic_search env2.search q 5 =
        semantic_search env.search q 5 := by
      unfold semantic_search
      rw [h1, h2, h3]
    simp only [generate_response, fallback_response, hss, h4, h5]

/-- C7 witness: two concrete requests differing only in max_results receive
the same answer. -/
theorem C7_fixed_fanout_witness :
    ask_question envHappy true { query := "q", max_results := some 1 } =
      ask_question envHappy true { query := "q", max_results := some 9 } :=
  (C7_fixed_fanout_and_max_results_ignored envHappy true "q" (some 1)
    (some 9)).1

/-- C8: on any successful retrieval, each snippet similarity is exactly
1 - d for the corresponding index distance d, positionally in order. -/
theorem C8_similarity_one_minus_distance (env : SearchEnv) (q : String)
    (n : Nat) (r : RawResult) (cs : List String) (cst : List (List String))
    (ms : List Metadata) (mst : List (List Metadata)) (ds : List ℚ)
    (dst : List (List ℚ)) (l : List Snippet)
    (hc : env.chromaAvailable = true) (he : env.embedderAvailable = true)
    (hr : env.indexQuery q n = some r) (hcs : r.documents = cs :: cst)
    (hms : r.metadatas = ms :: mst) (hds : r.distances = ds :: dst)
    (hfl : formatLoop cs ms ds = some l) :
    semantic_search env q n = l
    ∧ l.map Snippet.similarity = (ds.take cs.length).map (fun d => 1 - d) := by
  refine ⟨?_, formatLoop_map_similarity cs ms ds l hfl⟩
  rw [semantic_search_eq_formatLoop env q n r cs cst ms mst ds dst hc he hr
    hcs hms hds, hfl]
  rfl

/-- C8 witness: for the concrete distance 0.15, the reported similarity is
exactly 0.85 (17/20 in the rational model). -/
theorem C8_similarity_one_minus_distance_witness :
    semantic_search searchPoint15 "q" 5 = [Snippet.mk "d" mdEmpty (17/20)]
    ∧ ([Snippet.mk "d" mdEmpty (17/20)] : List Snippet).map
        Snippet.similarity =
      (([15/100] : List ℚ).take (["d"] : List String).length).map
        (fun d => 1 - d) :=
  C8_similarity_one_minus_distance searchPoint15 "q" 5 rawPoint15 ["d"] []
    [mdEmpty] [] [15/100] [] [Snippet.mk "d" mdEmpty (17/20)]
    rfl rfl rfl rfl rfl rfl
    (by simp [formatLoop]
        norm_num)

/-- C9: when the first batch of the index response has more documents than
metadata or distance entries, the whole retrieval collapses to the empty
list (every mismatched result is dropped), and every snippet that is
returned carries the document, the metadata and the distance of one single
position where all three are present, so no partial snippet with blank
fields ever surfaces. -/
theorem C9_mismatched_results_dropped (env : SearchEnv) (q : String)
    (n : Nat) :
    (∀ r cs cst ms mst ds dst,
      env.indexQuery q n = some r → r.documents = cs :: cst →
      r.metadatas = ms :: mst → r.distances = ds :: dst →
      (ms.length < cs.length ∨ ds.length < cs.length) →
      semantic_search env q n = [])
    ∧ ∀ s ∈ semantic_search env q n,
        ∃ (r : RawResult) (cs : List String) (ms : List Metadata)
          (ds : List ℚ),
          env.indexQuery q n = some r ∧ r.documents.head? = some cs ∧
          r.metadatas.head? = some ms ∧ r.distances.head? = some ds ∧
          ∃ (i : Nat) (h1 : i < cs.length) (h2 : i < ms.length)
            (h3 : i < ds.length),
            s = ⟨cs.get ⟨i, h1⟩, ms.get ⟨i, h2⟩, 1 - ds.get ⟨i, h3⟩⟩ := by
  constructor
  · intro r cs cst ms mst ds dst hr hcs hms hds hlen
    by_cases hav : env.chromaAvailable && env.embedderAvailable
    · rw [Bool.and_eq_true] at hav
      obtain ⟨hc, he⟩ := hav
      rw [semantic_search_eq_formatLoop env q n r cs cst ms mst ds dst hc he
        hr hcs hms hds, (formatLoop_eq_none_iff cs ms ds).mpr hlen]
      rfl
    · simp [semantic_search, hav]
  · exact fun s hs => mem_semantic_search env q n s hs

/-- C9 witness: the concrete response with two documents but one metadata
entry retrieves nothing. -/
theorem C9_mismatched_results_dropped_witness :
    semantic_search searchMismatch "q" 5 = [] :=
  (C9_mismatched_results_dropped searchMismatch "q" 5).1 rawMismatch
    ["a", "b"] [] [mdEmpty] [] [1/10, 2/10] [] rfl rfl rfl rfl
    (Or.inl (by decide))

/-- C10: every retrieved snippet is kept in the sources list at its own
position, and when its metadata lacks the title or the url key the
corresponding source entry carries the default title or the default URL. -/
theorem C10_missing_metadata_defaults (env : Env) (q : String)
    (l : List Snippet) (h : semantic_search env.search q 5 = l)
    (hne : l ≠ []) :
    (generate_response env q).sources.length = l.length
    ∧ ∀ (i : Nat) (hi : i < l.length),
        (generate_response env q).sources.get? i =
          some (mkSource (l.get ⟨i, hi⟩))
        ∧ ((l.get ⟨i, hi⟩).metadata.title = none →
            (mkSource (l.get ⟨i, hi⟩)).title = "Crossmint Documentation")
        ∧ ((l.get ⟨i, hi⟩).metadata.url = none →
            (mkSource (l.get ⟨i, hi⟩)).url = "https://docs.crossmint.com") := by
  have hsrc := sources_eq_map_mkSource env q l h hne
  constructor
  · rw [hsrc, List.length_map]
  · intro i hi
    refine ⟨?_, ?_, ?_⟩
    · rw [hsrc, List.get?_map, List.get?_eq_get hi]
      rfl
    · intro ht
      show (l.get ⟨i, hi⟩).metadata.title.getD "Crossmint Documentation" =
        "Crossmint Documentation"
      rw [ht]
      rfl
    · intro hu
      show (l.get ⟨i, hi⟩).metadata.url.getD "https://docs.crossmint.com" =
        "https://docs.crossmint.com"
      rw [hu]
      rfl

/-- C10 witness: in the concrete two-hit environment, the second snippet has
no title and no url metadata, and its source entry is kept with both
defaults substituted. -/
theorem C10_missing_metadata_defaults_witness :
    (generate_response envHappy "How do I mint?").sources.get? 1 =
      some (mkSource (([Snippet.mk "docA" mdDoc (91/100),
        Snippet.mk "docB" mdEmpty (77/100)] : List Snippet).get
          ⟨1, by decide⟩)) :=
  ((C10_missing_metadata_defaults envHappy "How do I mint?"
    [Snippet.mk "docA" mdDoc (91/100), Snippet.mk "docB" mdEmpty (77/100)]
    (by simp [semantic_search, envHappy, searchHappy, rawHappy, formatLoop]
        norm_num)
    (by simp)).2 1 (by decide)).1

end CrossmintBot
